import Mathlib

/-!
Shallow embedding of `stats.py` (glommer/ghstats): a script that fetches
pull-request metadata from the GitHub REST API, classifies pull requests as
open / merged / abandoned, and prints summary statistics.

Embedding conventions:
  * A calendar date (`datetime.date`) is an `Int` day ordinal; `d2 - d1` in
    days is ordinal subtraction, exactly Python's `(d2 - d1).days`.
    `civilDays` maps a Gregorian calendar date to its ordinal so that
    concrete dates such as 2024-01-01 can be written down.
  * The ambient current date (`datetime.date.today()`) is an explicit
    `today : Int` argument threaded through the functions that read it.
  * A parsed JSON pull-request object is a `RawPR`; a field that may be
    JSON `null` is an `Option` (Python's `parse(None)` raises `TypeError`,
    which the source catches and turns into `None`).
  * The network is an oracle `net : String → UserInfo` for the user-profile
    endpoint, and an explicit response chain `List Page` for the paginated
    pull-request endpoint (each successor in the list is the response behind
    the `next` relation link of the previous one).
  * Python runtime failures are explicit: a function that can raise returns
    `Except HErr _` (or `Option`), with one `HErr` constructor per Python
    exception class that the relevant code can raise.
-/

/-- One Python exception class observable in the reporting code:
`TypeError` (subtracting `None` dates), `ZeroDivisionError`,
`IndexError` (indexing an empty list), `KeyError` (`str.format` with a
missing keyword). -/
inductive HErr where
  | typeError
  | divByZero
  | indexError
  | keyError
deriving DecidableEq, Repr

deriving instance DecidableEq for Except

/-- The JSON dictionary returned by the user-profile endpoint, as read by
`User.__str__` (stats.py lines 18-24): the `name` key may be absent
(outer `none`) or hold JSON `null` (inner `none`); the `login` key may be
absent. -/
structure UserInfo where
  name : Option (Option String) := none
  login : Option String := none
deriving DecidableEq, Repr

/-- The process-wide `User.cache` dictionary, keyed by profile URL. -/
abbrev UserCache := List (String × UserInfo)

/-- `User.cache = {}` (stats.py line 10): the class attribute's initial
value.  No statement anywhere in the program assigns into this dictionary. -/
def User.cacheInit : UserCache := []

/-- `User.__init__` (stats.py lines 11-16): look the URL up in the cache;
on a hit take the cached info (no network), on a miss fetch from the
network.  Returns the info, the cache afterwards, and the number of network
requests issued.  Note the miss branch does not store the fetched info back
into the cache. -/
def User.init (net : String → UserInfo) (cache : UserCache) (userurl : String) :
    UserInfo × UserCache × Nat :=
  match cache.lookup userurl with
  | some info => (info, cache, 0)
  | none => (net userurl, cache, 1)

/-- `User.__init__` never modifies the cache: neither branch writes to it. -/
theorem User.init_cache (net : String → UserInfo) (cache : UserCache) (url : String) :
    (User.init net cache url).2.1 = cache := by
  unfold User.init
  cases cache.lookup url <;> rfl

/-- `User.__str__` (stats.py lines 18-24): prefer a truthy `name`, fall back
to `login`; a `KeyError` from a missing key is swallowed by the bare
`except` and renders as the literal string `"None"`.  (A `login` key holding
JSON `null` is likewise rendered `"None"` here: it denotes the same visible
text at the format site.) -/
def User.display (info : UserInfo) : String :=
  match info.name with
  | none => "None"
  | some nameVal =>
    if nameVal = none ∨ nameVal = some "" then
      match info.login with
      | none => "None"
      | some l => l
    else nameVal.getD ""

/-- Resolve the same profile URL twice starting from the initial (empty)
cache, as happens when one user authors two pull requests in a run: total
network requests issued and the cache after both resolutions. -/
def resolveTwice (net : String → UserInfo) (url : String) : Nat × UserCache :=
  let r1 := User.init net User.cacheInit url
  let r2 := User.init net r1.2.1 url
  (r1.2.2 + r2.2.2, r2.2.1)

/-- Day ordinal of a proleptic Gregorian date (valid for year ≥ 1), as used
by `datetime.date`: only differences of ordinals are ever observed. -/
def civilDays (y m d : Nat) : Int :=
  let y' := if m ≤ 2 then y - 1 else y
  let era := y' / 400
  let yoe := y' - era * 400
  let mp := (m + 9) % 12
  let doy := (153 * mp + 2) / 5 + d - 1
  let doe := yoe * 365 + yoe / 4 - yoe / 100 + doy
  (era * 146097 + doe : Nat)

/-- One parsed element of the JSON array returned by the pull-request list
endpoint, holding exactly the fields `ScyllaPR.__init__` reads.
`closed_at` / `merged_at` are `none` when the payload holds JSON `null`. -/
structure RawPR where
  created_at : Int
  closed_at : Option Int
  merged_at : Option Int
  title : String
  html_url : String
  userUrl : String
  reviewerUrls : List String
deriving DecidableEq, Repr

/-- A constructed pull-request record (class `ScyllaPR`, stats.py
lines 26-43). -/
structure ScyllaPR where
  created_at : Int
  closed_at : Option Int
  merged_at : Option Int
  title : String
  url : String
  user : UserInfo
  reviewers : List UserInfo
deriving DecidableEq, Repr

/-- `ScyllaPR.__init__` (stats.py lines 27-43).  `parse(json['closed_at'])`
on `null` raises `TypeError`, caught and turned into `None` — here the
`Option` is carried over directly.  `User(...)` is called for the author and
every requested reviewer; since `User.__init__` never writes the cache
(`User.init_cache`), every one of those calls sees the cache in its initial
empty state, so construction is a pure function of the network oracle. -/
def mkScyllaPR (net : String → UserInfo) (json : RawPR) : ScyllaPR :=
  { created_at := json.created_at
    closed_at := json.closed_at
    merged_at := json.merged_at
    title := json.title
    url := json.html_url
    user := (User.init net User.cacheInit json.userUrl).1
    reviewers := json.reviewerUrls.map (fun u => (User.init net User.cacheInit u).1) }

/-- `ScyllaPR.timeToClose` (stats.py lines 45-46): `(closed_at - created_at).days`;
`none` models the `TypeError` raised when `closed_at` is `None`. -/
def ScyllaPR.timeToClose (p : ScyllaPR) : Option Int :=
  p.closed_at.map (fun c => c - p.created_at)

/-- `ScyllaPR.openFor` (stats.py lines 48-49): `(date.today() - created_at).days`. -/
def ScyllaPR.openFor (p : ScyllaPR) (today : Int) : Int :=
  today - p.created_at

/-- `ScyllaPR.isOpen` (stats.py lines 51-52): `not self.closed_at`; a date
object is always truthy, so this is exactly "closing date unset". -/
def ScyllaPR.isOpen (p : ScyllaPR) : Bool :=
  p.closed_at.isNone

/-- `ScyllaPR.isAbandoned` (stats.py lines 54-55): `closed_at and not merged_at`. -/
def ScyllaPR.isAbandoned (p : ScyllaPR) : Bool :=
  p.closed_at.isSome && p.merged_at.isNone

/-- `ScyllaPR.isMerged` (stats.py lines 57-58): truthiness of `merged_at`. -/
def ScyllaPR.isMerged (p : ScyllaPR) : Bool :=
  p.merged_at.isSome

/-- `ScyllaPR.needsAttention` (stats.py lines 60-61):
`isOpen() and date.today() - timedelta(days=days) > created_at`. -/
def ScyllaPR.needsAttention (p : ScyllaPR) (today days : Int) : Bool :=
  p.isOpen && decide (today - days > p.created_at)

/-- `ScyllaPR.__str__` (stats.py lines 63-72): the multi-line text block.
Dates render through their ordinal here; only the block's structure and the
day counts are observed by the statements below. -/
def ScyllaPR.render (p : ScyllaPR) (today : Int) : String :=
  let s := "\tAuthor      : " ++ User.display p.user ++ "\n"
    ++ "\tTitle       : " ++ p.title ++ "\n"
    ++ "\tURL         : " ++ p.url ++ "\n"
  match p.closed_at with
  | none =>
    s ++ "\tCreated  at : " ++ toString p.created_at ++ " ("
      ++ toString (p.openFor today) ++ " days ago)\n"
  | some c =>
    s ++ "\tCreated  at : " ++ toString p.created_at ++ " and Closed at "
      ++ toString c ++ " (" ++ toString (c - p.created_at) ++ " after days)\n"

/-- `read_all` (stats.py lines 74-75): the default inclusion predicate. -/
def read_all (_ : RawPR) : Bool := true

/-- One HTTP response of the pull-request list endpoint: status code and the
parsed JSON array.  A chain `List Page` is the sequence of responses reached
by following `next` relation links from the starting URL. -/
structure Page where
  status : Int
  items : List RawPR
deriving DecidableEq, Repr

/-- Result of `getGithubData`: either the accumulated records, or
`sys.exit(-1)` after printing one line to `stderr`. -/
inductive FetchOutcome where
  | ok (records : List ScyllaPR)
  | fatal (stderrLine : String) (exitCode : Int)
deriving DecidableEq, Repr

/-- The `while True` loop of `getGithubData` (stats.py lines 82-95), with
`acc` playing `ret`: on a non-200 status print to `stderr` and exit `-1`;
otherwise append a record for each array element satisfying the predicate
and continue with the `next` page, returning `acc` when there is none. -/
def fetchGo (net : String → UserInfo) (crit : RawPR → Bool) :
    List Page → List ScyllaPR → FetchOutcome
  | [], acc => .ok acc
  | pg :: rest, acc =>
    if pg.status = 200 then
      fetchGo net crit rest (acc ++ (pg.items.filter crit).map (mkScyllaPR net))
    else
      .fatal "Can\x27t contact github API" (-1)

/-- `getGithubData` (stats.py lines 77-95) over the response chain of its
starting URL. -/
def getGithubData (net : String → UserInfo) (pages : List Page)
    (add_criteria : RawPR → Bool := read_all) : FetchOutcome :=
  fetchGo net add_criteria pages []

/-- The classification loop of the main block (stats.py lines 183-190): a
closed-endpoint record that still reports itself open raises; otherwise
records are appended to the abandoned or merged bucket in fetch order. -/
def classify : List ScyllaPR → Except String (List ScyllaPR × List ScyllaPR)
  | [] => .ok ([], [])
  | x :: xs =>
    if x.isOpen then .error "Not expecting an open PR"
    else
      match classify xs with
      | .error e => .error e
      | .ok (aband, merged) =>
        if x.isAbandoned then .ok (x :: aband, merged)
        else if x.isMerged then .ok (aband, x :: merged)
        else .ok (aband, merged)

/-- The fixed histogram thresholds (stats.py lines 99-112), in the order
`sorted(bins.keys())` produces. -/
def binThresholds : List Int := [0, 1, 2, 3, 4, 5, 6, 7, 15, 21, 30, 60, 120]

/-- The inner loop of `printHistogram` (stats.py lines 117-121): the first
threshold a value does not exceed, if any (`break` after the increment;
a value above every threshold increments nothing). -/
def binFor (x : Int) : Option Int :=
  binThresholds.find? (fun k => decide (x ≤ k))

/-- The count `bins[k]` after the filling loop: how many data points have
`k` as the first threshold they do not exceed. -/
def binCount (data : List Int) (k : Int) : Nat :=
  (data.filter (fun x => decide (binFor x = some k))).length

/-- `[ x.timeToClose() for x in closedPR ]` (stats.py line 116): `none` when
some record is open, in which case Python raises `TypeError` inside the
comprehension. -/
def collectData : List ScyllaPR → Option (List Int)
  | [] => some []
  | p :: ps =>
    match p.timeToClose, collectData ps with
    | some t, some ts => some (t :: ts)
    | _, _ => none

/-- What `printHistogram` prints on success: the average (Python
`int(sum/len)` truncates toward zero), the peak, and one bar per surviving
bin — its threshold and its string of `@` marks. -/
structure HistOutput where
  average : Int
  peak : Int
  bars : List (Int × String)
deriving DecidableEq, Repr

/-- `printHistogram` (stats.py lines 98-130).  Failure modes in program
order: `TypeError` from `timeToClose` on an open record, `ZeroDivisionError`
from `sum(data)/len(data)` on an empty record list, and `IndexError` from
`sorted_keys[-1]` when the trimming loop has popped every key (every bin
zero).  The trimming loop drops keys from the largest threshold down while
their bin is zero. -/
def printHistogram (closedPR : List ScyllaPR) : Except HErr HistOutput :=
  match collectData closedPR with
  | none => .error HErr.typeError
  | some [] => .error HErr.divByZero
  | some (d :: ds) =>
    let data := d :: ds
    let avg := Int.tdiv data.sum data.length
    let peak := ds.foldl max d
    let keys := (binThresholds.reverse.dropWhile (fun k => decide (binCount data k = 0))).reverse
    match keys with
    | [] => .error HErr.indexError
    | ks =>
      .ok { average := avg
            peak := peak
            bars := ks.map (fun k => (k, String.mk (List.replicate (binCount data k) '@'))) }

/-- One replacement field or literal run of a Python format template. -/
inductive FmtPart where
  | lit (s : String)
  | pos (i : Nat)
  | field (nm : String)
deriving DecidableEq, Repr

/-- Python `str.format`: literals pass through, a numbered field indexes the
positional arguments (`IndexError` if out of range), a named field looks up
the keyword arguments (`KeyError` if absent). -/
def strFormat (parts : List FmtPart) (positional : List String)
    (named : List (String × String)) : Except HErr String :=
  parts.foldlM
    (fun acc part =>
      match part with
      | FmtPart.lit s => .ok (acc ++ s)
      | FmtPart.pos i =>
        match positional.get? i with
        | some v => .ok (acc ++ v)
        | none => .error HErr.indexError
      | FmtPart.field nm =>
        match named.lookup nm with
        | some v => .ok (acc ++ v)
        | none => .error HErr.keyError)
    ""

/-- The template of stats.py line 135: `"for the past {days} days"` — one
named replacement field `days` between two literals. -/
def periodTemplate : List FmtPart :=
  [FmtPart.lit "for the past ", FmtPart.field "days", FmtPart.lit " days"]

/-- The period header (stats.py lines 134-137): a falsy `days` (absent or
zero) selects the whole-life header; otherwise
`"for the past {days} days".format(days)` is evaluated — the value is passed
positionally, with no keyword arguments. -/
def periodOf (days : Option Int) : Except HErr String :=
  match days with
  | some d =>
    if d ≠ 0 then strFormat periodTemplate [toString d] []
    else .ok "For the entire life of the repository"
  | none => .ok "For the entire life of the repository"

/-- Stable insert of Python's stable sort with `reverse=True`: an element
goes before the first element whose key does not exceed its own, so earlier
elements stay ahead on equal keys. -/
def insertDescBy (key : ScyllaPR → Int) (x : ScyllaPR) : List ScyllaPR → List ScyllaPR
  | [] => [x]
  | y :: ys => if key y ≤ key x then x :: y :: ys else y :: insertDescBy key x ys

/-- `openPR.sort(key=lambda x: x.openFor(), reverse=True)` (stats.py
line 151): stable sort by descending key. -/
def sortDescBy (key : ScyllaPR → Int) : List ScyllaPR → List ScyllaPR
  | [] => []
  | x :: xs => insertDescBy key x (sortDescBy key xs)

/-- What `printStats` prints on success: the period header, the merged and
abandoned sections (count and histogram, each only when its bucket is
non-empty), the open count, and the rendered blocks of the open pull
requests needing attention (sorted, empty when the section is not printed). -/
structure StatsOutput where
  period : String
  merged : Option (Nat × HistOutput)
  abandoned : Option (Nat × HistOutput)
  openCount : Nat
  attention : List String
deriving DecidableEq, Repr

/-- `printStats` (stats.py lines 133-156).  The period header is computed
first; `if mergedPR:` / `if abandonedPR:` guard the count line and histogram
of each bucket on non-emptiness; then the open count, and the text blocks of
open pull requests sorted by descending `openFor()` whose
`needsAttention(15)` holds. -/
def printStats (today : Int) (days : Option Int) (openPR : List ScyllaPR)
    (abandonedPR : List ScyllaPR := []) (mergedPR : List ScyllaPR := []) :
    Except HErr StatsOutput :=
  match periodOf days with
  | .error e => .error e
  | .ok period =>
    match (if mergedPR.isEmpty then .ok none
           else (printHistogram mergedPR).map (fun h => some (mergedPR.length, h))) with
    | .error e => .error e
    | .ok mergedSec =>
      match (if abandonedPR.isEmpty then .ok none
             else (printHistogram abandonedPR).map (fun h => some (abandonedPR.length, h))) with
      | .error e => .error e
      | .ok abandonedSec =>
        .ok { period := period
              merged := mergedSec
              abandoned := abandonedSec
              openCount := openPR.length
              attention :=
                ((sortDescBy (fun x => x.openFor today) openPR).filter
                  (fun x => x.needsAttention today 15)).map (fun x => x.render today) }

/-! ## Concrete fixtures -/

/-- A network oracle whose user-profile endpoint always answers with login
`alice` and a null name. -/
def netAlice : String → UserInfo :=
  fun _ => { name := some none, login := some "alice" }

/-- The raw API object of one closed and merged pull request with
`created_at = 2024-01-01` and `closed_at = merged_at = 2024-01-04`. -/
def rawMergedJan : RawPR :=
  { created_at := civilDays 2024 1 1
    closed_at := some (civilDays 2024 1 4)
    merged_at := some (civilDays 2024 1 4)
    title := "example change"
    html_url := "https://github.com/scylladb/scylla/pull/1"
    userUrl := "https://api.github.com/users/alice"
    reviewerUrls := [] }

/-- The record the script constructs for `rawMergedJan`. -/
def prMergedJan : ScyllaPR := mkScyllaPR netAlice rawMergedJan

/-- The histogram the script actually prints for `[prMergedJan]`: close
latency 3 days, one mark in bin 3, bins 4 and above trimmed away. -/
def histJan : HistOutput :=
  { average := 3, peak := 3, bars := [(0, ""), (1, ""), (2, ""), (3, "@")] }

/-- A record whose payload had `merged_at` set but `closed_at` null. -/
def prMergedUnclosed : ScyllaPR :=
  { created_at := 0, closed_at := none, merged_at := some 3,
    title := "", url := "", user := {}, reviewers := [] }

/-- A closed-and-merged record satisfying the data-model invariant. -/
def prDone : ScyllaPR :=
  { created_at := 0, closed_at := some 5, merged_at := some 5,
    title := "", url := "", user := {}, reviewers := [] }

/-- An open record created at day 0. -/
def prOpenOld : ScyllaPR :=
  { created_at := 0, closed_at := none, merged_at := none,
    title := "", url := "", user := {}, reviewers := [] }

/-- Closed records with close times 0, 1 and 1 days. -/
def prClose0 : ScyllaPR :=
  { created_at := 10, closed_at := some 10, merged_at := some 10,
    title := "", url := "", user := {}, reviewers := [] }

def prClose1a : ScyllaPR :=
  { created_at := 10, closed_at := some 11, merged_at := some 11,
    title := "", url := "", user := {}, reviewers := [] }

def prClose1b : ScyllaPR :=
  { created_at := 20, closed_at := some 21, merged_at := some 21,
    title := "", url := "", user := {}, reviewers := [] }

/-- A record whose close time, 121 days, exceeds every histogram threshold. -/
def pr121 : ScyllaPR :=
  { created_at := 0, closed_at := some 121, merged_at := some 121,
    title := "", url := "", user := {}, reviewers := [] }

/-! ## C1 — user cache -/

/-- C1: resolving the same profile URL twice within one run.  The claim says
the first resolution populates the process-wide cache and the second returns
the cached result without a network request; the code's `User.__init__`
never assigns into `User.cache`, so both resolutions hit the network (2
requests) and the cache is still empty afterwards. -/
theorem resolveTwice_two_requests_cache_empty (net : String → UserInfo) (url : String) :
    resolveTwice net url = (2, []) := rfl

/-! ## C2 — end-to-end merged-PR scenario -/

/-- C2 counterexample: for the single merged pull request with
`created_at = 2024-01-01` and `closed_at = 2024-01-04`, the printed
histogram has no bin-4 bar at all — the single mark sits in bin 3 (the
close latency is 3 days, and 3 is the smallest threshold it does not
exceed), and bins 4..120 are trimmed. -/
theorem mergedJan_mark_in_bin3_not_bin4 :
    printHistogram [prMergedJan] = Except.ok histJan ∧
    histJan.bars.lookup 4 = none ∧
    histJan.bars.lookup 3 = some "@" := by decide

/-- C2 amended: for that input the report shows a merged count of 1 and a
histogram whose single mark is in bin 3, with no earlier bin populated. -/
theorem mergedJan_report :
    printStats 0 none [] [] [prMergedJan] =
      Except.ok { period := "For the entire life of the repository"
                  merged := some (1, histJan)
                  abandoned := none
                  openCount := 0
                  attention := [] } := by decide

/-! ## C4 — status predicates -/

/-- C4 counterexample: over all combinations of set/unset closing and merge
dates, `isMerged` does not imply `not isOpen`: a record whose merge date is
set but whose closing date is unset reports both. -/
theorem isMerged_and_isOpen_coexist :
    ¬ ∀ p : ScyllaPR, p.isMerged = true → p.isOpen = false := by
  intro h
  exact absurd (h prMergedUnclosed rfl) (by decide)

/-- C4 amended: for every record — any combination of set/unset dates —
`isMerged` excludes `isAbandoned` and `isAbandoned` excludes `isOpen`;
`isMerged` excludes `isOpen` only given the data-model invariant that a set
merge date implies a set closing date (which the counterexample record
violates). -/
theorem status_predicates_exclusive (p : ScyllaPR) :
    (p.isMerged = true → p.isAbandoned = false) ∧
    (p.isAbandoned = true → p.isOpen = false) ∧
    ((p.merged_at.isSome = true → p.closed_at.isSome = true) →
      p.isMerged = true → p.isOpen = false) := by
  unfold ScyllaPR.isMerged ScyllaPR.isAbandoned ScyllaPR.isOpen
  obtain ⟨ca, co, me, ti, ur, us, re⟩ := p
  cases co <;> cases me <;> simp

theorem status_predicates_exclusive_witness :
    (prDone.isMerged = true → prDone.isAbandoned = false) ∧
    (prDone.isAbandoned = true → prDone.isOpen = false) ∧
    ((prDone.merged_at.isSome = true → prDone.closed_at.isSome = true) →
      prDone.isMerged = true → prDone.isOpen = false) :=
  status_predicates_exclusive prDone

/-! ## C5 — needsAttention -/

/-- C5: `needsAttention(p, days)` holds exactly when the record is open and
`today - days` is strictly after the creation date; at the boundary
`today - days = created_at` it is false. -/
theorem needsAttention_iff (today days : Int) (p : ScyllaPR) :
    (p.needsAttention today days = true ↔
      (p.isOpen = true ∧ today - days > p.created_at)) ∧
    (today - days = p.created_at → p.needsAttention today days = false) := by
  constructor
  · simp [ScyllaPR.needsAttention]
  · intro h
    simp [ScyllaPR.needsAttention, h]

theorem needsAttention_iff_witness : prOpenOld.needsAttention 20 15 = true :=
  (needsAttention_iff 20 15 prOpenOld).1.mpr ⟨rfl, by decide⟩

/-! ## C6 — trailing empty-bin trimming -/

/-- C6: with close times `[0, 1, 1]` the printed histogram keeps only bins
0 and 1; the bins 2, 3, 4, 5, 6, 7, 15, 21, 30, 60, 120 are all trimmed. -/
theorem histogram_trims_trailing_bins :
    printHistogram [prClose0, prClose1a, prClose1b] =
      Except.ok { average := 0, peak := 1, bars := [(0, "@"), (1, "@@")] } := by decide

/-! ## C3 — period header -/

/-- Evaluating the period template with the value passed positionally can
only fail with `KeyError`: the named field `days` is absent from the (empty)
keyword arguments, before any positional argument is consulted. -/
theorem strFormat_period_key_error (s : String) :
    strFormat periodTemplate [s] [] = Except.error HErr.keyError := rfl

/-- C3: the claim says `printStats` with a non-zero period prints the header
"for the past N days" and proceeds without error.  The code instead raises
`KeyError`: line 135 evaluates `"for the past {days} days".format(days)`,
passing the value positionally while the template names the field `days`. -/
theorem printStats_nonzero_period_key_error (today d : Int)
    (o a m : List ScyllaPR) (hd : d ≠ 0) :
    printStats today (some d) o a m = Except.error HErr.keyError := by
  have hp : periodOf (some d) = Except.error HErr.keyError := by
    rw [periodOf, if_pos hd]
    exact strFormat_period_key_error (toString d)
  unfold printStats
  rw [hp]

theorem printStats_nonzero_period_key_error_witness :
    ((30 : Int) ≠ 0) ∧ printStats 0 (some 30) [] [] [] = Except.error HErr.keyError :=
  ⟨by decide, printStats_nonzero_period_key_error 0 30 [] [] [] (by decide)⟩

/-! ## C7 — pagination -/

/-- The fetch loop over an all-successful chain returns the accumulator
followed by the per-page accepted records, pages in fetch order. -/
theorem fetchGo_ok (net : String → UserInfo) (crit : RawPR → Bool) (pages : List Page)
    (h : ∀ pg ∈ pages, pg.status = 200) (acc : List ScyllaPR) :
    fetchGo net crit pages acc =
      FetchOutcome.ok
        (acc ++ (pages.map (fun pg => (pg.items.filter crit).map (mkScyllaPR net))).flatten) := by
  induction pages generalizing acc with
  | nil => simp [fetchGo]
  | cons pg rest ih =>
    rw [fetchGo, if_pos (h pg (List.mem_cons_self pg rest))]
    rw [ih (fun q hq => h q (List.mem_cons_of_mem _ hq))]
    simp

/-- C7: over a response chain whose pages are all successful, the fetch
returns exactly the records of the accepted raw objects, pages concatenated
in fetch order with per-page order preserved; the predicate filters the raw
API objects and only then are records constructed. -/
theorem getGithubData_pages (net : String → UserInfo) (pages : List Page)
    (crit : RawPR → Bool) (h : ∀ pg ∈ pages, pg.status = 200) :
    getGithubData net pages crit =
      FetchOutcome.ok
        ((pages.map (fun pg => (pg.items.filter crit).map (mkScyllaPR net))).flatten) := by
  rw [getGithubData, fetchGo_ok net crit pages h []]
  simp

/-- A raw pull-request object distinguished by its title. -/
def rawItem (n : Nat) : RawPR :=
  { created_at := 0, closed_at := some 2, merged_at := some 2,
    title := "pr" ++ toString n, html_url := "", userUrl := "", reviewerUrls := [] }

/-- Three successful pages of 2, 2 and 1 pull requests chained via `next`
links. -/
def chain3 : List Page :=
  [ { status := 200, items := [rawItem 1, rawItem 2] },
    { status := 200, items := [rawItem 3, rawItem 4] },
    { status := 200, items := [rawItem 5] } ]

theorem getGithubData_pages_witness :
    (∀ pg ∈ chain3, pg.status = 200) ∧
    getGithubData netAlice chain3 read_all =
      FetchOutcome.ok
        ((chain3.map (fun pg => (pg.items.filter read_all).map (mkScyllaPR netAlice))).flatten) :=
  ⟨by decide, getGithubData_pages netAlice chain3 read_all (by decide)⟩

/-- The 2-2-1 chain yields the five records in page order. -/
theorem chain3_five_records :
    getGithubData netAlice chain3 read_all =
      FetchOutcome.ok
        [mkScyllaPR netAlice (rawItem 1), mkScyllaPR netAlice (rawItem 2),
         mkScyllaPR netAlice (rawItem 3), mkScyllaPR netAlice (rawItem 4),
         mkScyllaPR netAlice (rawItem 5)] := by decide

/-- A predicate rejecting exactly the raw objects of the second page. -/
def rejectMid (r : RawPR) : Bool :=
  decide (r.title ≠ "pr3") && decide (r.title ≠ "pr4")

/-- Rejecting the whole second page yields three records, pages 1 and 3 in
order. -/
theorem chain3_filtered_three_records :
    getGithubData netAlice chain3 rejectMid =
      FetchOutcome.ok
        [mkScyllaPR netAlice (rawItem 1), mkScyllaPR netAlice (rawItem 2),
         mkScyllaPR netAlice (rawItem 5)] := by decide

/-! ## C8 — non-success page is fatal -/

/-- The fetch loop hitting a non-success page: whatever was accumulated is
discarded and the outcome is the one stderr line and exit code `-1`. -/
theorem fetchGo_fatal (net : String → UserInfo) (crit : RawPR → Bool)
    (good : List Page) (bad : Page) (rest : List Page)
    (hg : ∀ pg ∈ good, pg.status = 200) (hb : bad.status ≠ 200) (acc : List ScyllaPR) :
    fetchGo net crit (good ++ bad :: rest) acc =
      FetchOutcome.fatal "Can\x27t contact github API" (-1) := by
  induction good generalizing acc with
  | nil =>
    rw [List.nil_append, fetchGo, if_neg hb]
  | cons pg rest' ih =>
    rw [List.cons_append, fetchGo, if_pos (hg pg (List.mem_cons_self pg rest'))]
    exact ih (fun q hq => hg q (List.mem_cons_of_mem _ hq)) _

/-- C8: if the response chain reaches a page with a non-success status, the
fetch reports the single stderr line and exits with the nonzero code `-1`,
returning no records — everything accumulated from the earlier (successful)
pages is discarded. -/
theorem getGithubData_fatal (net : String → UserInfo) (crit : RawPR → Bool)
    (good : List Page) (bad : Page) (rest : List Page)
    (hg : ∀ pg ∈ good, pg.status = 200) (hb : bad.status ≠ 200) :
    getGithubData net (good ++ bad :: rest) crit =
      FetchOutcome.fatal "Can\x27t contact github API" (-1) := by
  rw [getGithubData]
  exact fetchGo_fatal net crit good bad rest hg hb []

/-- A failing page (HTTP 500). -/
def pageBad : Page := { status := 500, items := [rawItem 9] }

theorem getGithubData_fatal_witness :
    (∀ pg ∈ chain3, pg.status = 200) ∧ pageBad.status ≠ 200 ∧
    getGithubData netAlice (chain3 ++ pageBad :: []) read_all =
      FetchOutcome.fatal "Can\x27t contact github API" (-1) :=
  ⟨by decide, by decide,
    getGithubData_fatal netAlice read_all chain3 pageBad [] (by decide) (by decide)⟩

/-! ## C9 — empty-bucket division by zero, guarded at the call site -/

/-- `collectData` of a non-empty record list is never `some []`. -/
theorem collectData_cons_ne_some_nil (p : ScyllaPR) (ps : List ScyllaPR) :
    collectData (p :: ps) ≠ some [] := by
  unfold collectData
  cases p.timeToClose <;> cases collectData ps <;> simp

/-- On a non-empty record list `printHistogram` never raises
`ZeroDivisionError` (it may still fail in other ways). -/
theorem printHistogram_ne_div (l : List ScyllaPR) (h : l ≠ []) :
    printHistogram l ≠ Except.error HErr.divByZero := by
  rcases l with _ | ⟨p, ps⟩
  · exact absurd rfl h
  · unfold printHistogram
    cases hc : collectData (p :: ps) with
    | none => simp
    | some data =>
      rcases data with _ | ⟨d, ds⟩
      · exact absurd hc (collectData_cons_ne_some_nil p ps)
      · cases hkeys :
          (binThresholds.reverse.dropWhile (fun k => decide (binCount (d :: ds) k = 0))).reverse with
        | nil => simp [hkeys]
        | cons k ks => simp [hkeys]

/-- The period header computation never raises `ZeroDivisionError`. -/
theorem periodOf_ne_div (days : Option Int) :
    periodOf days ≠ Except.error HErr.divByZero := by
  cases days with
  | none => simp [periodOf]
  | some d =>
    rw [periodOf]
    by_cases hd : d ≠ 0
    · rw [if_pos hd, strFormat_period_key_error]
      simp
    · rw [if_neg hd]
      simp

/-- `printStats` never raises `ZeroDivisionError`: it invokes
`printHistogram` only on the merged and abandoned buckets and only when they
are non-empty. -/
theorem printStats_no_div (today : Int) (days : Option Int) (o a m : List ScyllaPR) :
    printStats today days o a m ≠ Except.error HErr.divByZero := by
  unfold printStats
  cases hper : periodOf days with
  | error e =>
    intro hc
    injection hc with he
    exact periodOf_ne_div days (by rw [hper, he])
  | ok per =>
    cases hm : (if m.isEmpty then Except.ok none
        else (printHistogram m).map fun h => some (m.length, h)) with
    | error e =>
      intro hc
      injection hc with he
      by_cases hme : m.isEmpty
      · rw [if_pos hme] at hm
        cases hm
      · rw [if_neg hme] at hm
        cases hph : printHistogram m with
        | error e2 =>
          rw [hph] at hm
          simp [Except.map] at hm
          exact printHistogram_ne_div m
            (by intro hnil; subst hnil; exact hme rfl)
            (hph.trans (by rw [hm, he]))
        | ok hh =>
          rw [hph] at hm
          simp [Except.map] at hm
    | ok mergedSec =>
      cases ha : (if a.isEmpty then Except.ok none
          else (printHistogram a).map fun h => some (a.length, h)) with
      | error e =>
        intro hc
        injection hc with he
        by_cases hae : a.isEmpty
        · rw [if_pos hae] at ha
          cases ha
        · rw [if_neg hae] at ha
          cases hph : printHistogram a with
          | error e2 =>
            rw [hph] at ha
            simp [Except.map] at ha
            exact printHistogram_ne_div a
              (by intro hnil; subst hnil; exact hae rfl)
              (hph.trans (by rw [ha, he]))
          | ok hh =>
            rw [hph] at ha
            simp [Except.map] at ha
      | ok abandonedSec =>
        simp

/-- C9: `printHistogram` on an empty record sequence fails with the
division-by-zero error from `sum(data)/len(data)`; `printStats` never
produces that error, because it guards each `printHistogram` call on the
bucket being non-empty. -/
theorem printHistogram_empty_div_printStats_guarded :
    printHistogram ([] : List ScyllaPR) = Except.error HErr.divByZero ∧
    ∀ (today : Int) (days : Option Int) (o a m : List ScyllaPR),
      printStats today days o a m ≠ Except.error HErr.divByZero :=
  ⟨rfl, printStats_no_div⟩

theorem printHistogram_empty_div_printStats_guarded_witness :
    printStats 0 none [] [] [] ≠ Except.error HErr.divByZero :=
  printHistogram_empty_div_printStats_guarded.2 0 none [] [] []

/-! ## C10 — every bin zero: IndexError in the trimming loop -/

/-- A close time above the largest threshold lands in no bin. -/
theorem binFor_eq_none (x : Int) (hx : 120 < x) : binFor x = none := by
  rw [binFor, List.find?_eq_none]
  intro k hk
  simp only [decide_eq_true_eq]
  simp only [binThresholds, List.mem_cons, List.not_mem_nil, or_false] at hk
  rcases hk with rfl | rfl | rfl | rfl | rfl | rfl | rfl | rfl | rfl | rfl | rfl | rfl | rfl <;>
    omega

/-- If every data point exceeds 120 days, every bin count is zero. -/
theorem binCount_zero (data : List Int) (k : Int) (h : ∀ t ∈ data, 120 < t) :
    binCount data k = 0 := by
  rw [binCount, List.length_eq_zero, List.filter_eq_nil_iff]
  intro x hx
  simp only [decide_eq_true_eq]
  rw [binFor_eq_none x (h x hx)]
  simp

/-- If every record closes after more than 120 days, the comprehension
succeeds and yields one value above 120 per record. -/
theorem collectData_big (prs : List ScyllaPR)
    (h : ∀ p ∈ prs, ∃ t, p.timeToClose = some t ∧ 120 < t) :
    ∃ data, collectData prs = some data ∧ data.length = prs.length ∧
      ∀ t ∈ data, 120 < t := by
  induction prs with
  | nil => exact ⟨[], rfl, rfl, by simp⟩
  | cons p ps ih =>
    obtain ⟨t, ht, htb⟩ := h p (List.mem_cons_self p ps)
    obtain ⟨data, hd, hl, hb⟩ := ih (fun q hq => h q (List.mem_cons_of_mem _ hq))
    refine ⟨t :: data, ?_, by simp [hl], ?_⟩
    · unfold collectData
      rw [ht, hd]
    · intro u hu
      rcases List.mem_cons.mp hu with rfl | hu
      · exact htb
      · exact hb u hu

/-- C10: on a non-empty record sequence in which every close time exceeds
120 days, every histogram bin stays zero, the trimming loop pops every key,
and indexing the empty key list fails with `IndexError`. -/
theorem printHistogram_all_bins_zero_index_error (prs : List ScyllaPR)
    (hne : prs ≠ [])
    (hbig : ∀ p ∈ prs, ∃ t, p.timeToClose = some t ∧ 120 < t) :
    printHistogram prs = Except.error HErr.indexError := by
  obtain ⟨data, hd, hl, hb⟩ := collectData_big prs hbig
  rcases data with _ | ⟨d, ds⟩
  · exact absurd (List.length_eq_zero.mp hl.symm) hne
  · have hkeys :
        binThresholds.reverse.dropWhile (fun k => decide (binCount (d :: ds) k = 0)) = [] := by
      rw [List.dropWhile_eq_nil_iff]
      intro k _
      simp only [decide_eq_true_eq]
      exact binCount_zero (d :: ds) k hb
    unfold printHistogram
    rw [hd]
    simp only [hkeys, List.reverse_nil]

theorem printHistogram_all_bins_zero_index_error_witness :
    ([pr121] ≠ ([] : List ScyllaPR)) ∧
    printHistogram [pr121] = Except.error HErr.indexError :=
  ⟨by decide, printHistogram_all_bins_zero_index_error [pr121] (by decide)
      (fun p hp => by
        rw [List.mem_singleton] at hp
        subst hp
        exact ⟨121, rfl, by decide⟩)⟩
